import Mathlib

/-!
# Verification of the `ResizableSplitView` split-pane components

This file is a shallow embedding, over exact rational arithmetic, of the two
split-pane components of the repository:

* `Compact.*` embeds the feature-rich `ResizableSplitView` found in the
  document bundled inside `src/desktop_app/src/ui/components/CompactTimelinePanel.tsx`
  (the component with `dragStartX`/`dragStartRatio` refs, configurable
  `minLeftWidth`/`minRightWidth`/`maxLeftWidth`/`maxRightWidth`, collapse
  toggles with the 0.02 / 0.98 sentinels, and a `resetSplit` action).
  This is the component the specification's data model and operations
  (DragSession, PanelCollapseState, ToggleCollapse, ResetSplit) describe.

* `Layout.*` embeds the simpler `ResizableSplitView` of
  `src/desktop_app/src/components/layout/ResizableSplitView.jsx`
  (absolute-position formula `(clientX - rect.left) / rect.width`, hard-coded
  clamp to [0.2, 0.8], no drag-start capture, no collapse).

JavaScript numbers are idealized as rationals (`ℚ`); this is exact for every
computation whose divisor is nonzero.  The separate `JSNum` type models the
IEEE special values (`Infinity`, `-Infinity`, `NaN`) that JavaScript produces
on division by a zero container width; `jsMoveRatio` re-embeds the ratio
computation of the rich component over `JSNum`, and `jsMoveRatio_num` proves
the two embeddings agree whenever the container width is nonzero.

Event-listener plumbing (`useEffect` registration, cursor/user-select style
toggling) and rendering are not modelled; the model is the state machine on
`(splitRatio, isDragging, collapse flags, container attachment)` driven by
the handlers, with the values pushed to `onSplitRatioChange` recorded in a
log (`callbackLog`, most recent first).
-/

namespace Compact

/-- The configuration props of the rich `ResizableSplitView`
(`CompactTimelinePanel.tsx` bundle, lines 469–481), with the source's
default values.  `initialSplitRatio = 0.5`, `minLeftWidth = 300`,
`minRightWidth = 300`, `maxLeftWidth = 0.8`, `maxRightWidth = 0.8`. -/
structure Config where
  initialSplitRatio : ℚ := 1/2
  minLeftWidth : ℚ := 300
  minRightWidth : ℚ := 300
  maxLeftWidth : ℚ := 4/5
  maxRightWidth : ℚ := 4/5
deriving DecidableEq

/-- The component state: `useState` hooks (`splitRatio`, `isDragging`,
`isLeftCollapsed`, `isRightCollapsed`), the refs `dragStartX` and
`dragStartRatio`, whether `containerRef.current` is attached (`mounted`),
and the log of values passed to `onSplitRatioChange` (most recent first). -/
structure State where
  splitRatio : ℚ
  isDragging : Bool
  isLeftCollapsed : Bool
  isRightCollapsed : Bool
  mounted : Bool
  dragStartX : ℚ
  dragStartRatio : ℚ
  callbackLog : List ℚ
deriving DecidableEq

/-- Initial state: `useState(initialSplitRatio)`, `useState(false)` three
times, refs initialized to 0, container not yet attached, no callback
fired yet. -/
def init (cfg : Config) : State :=
  { splitRatio := cfg.initialSplitRatio
    isDragging := false
    isLeftCollapsed := false
    isRightCollapsed := false
    mounted := false
    dragStartX := 0
    dragStartRatio := 0
    callbackLog := [] }

/-- The container ref becomes attached when the component renders
(`ref={containerRef}`). -/
def mount (s : State) : State :=
  { s with mounted := true }

/-- `handleMouseDown` (lines 490–498): start a drag session, capturing the
pointer X and the current ratio in the refs.  (The cursor / user-select
style mutations are not modelled.)  Note: no container width is read or
stored here. -/
def handleMouseDown (s : State) (clientX : ℚ) : State :=
  { s with
    isDragging := true
    dragStartX := clientX
    dragStartRatio := s.splitRatio }

/-- The raw (pre-clamp) target ratio of a mouse move, lines 505–508:
`deltaX = e.clientX - dragStartX.current`,
`deltaRatio = deltaX / containerWidth`,
`newRatio = dragStartRatio.current + deltaRatio`. -/
def rawRatio (dragStartRatio dragStartX clientX containerWidth : ℚ) : ℚ :=
  dragStartRatio + (clientX - dragStartX) / containerWidth

/-- `minLeftRatio` of lines 511: `minLeftWidth / containerWidth`. -/
def minLeftRatio (cfg : Config) (containerWidth : ℚ) : ℚ :=
  cfg.minLeftWidth / containerWidth

/-- `minRightRatio` of line 512: `minRightWidth / containerWidth`. -/
def minRightRatio (cfg : Config) (containerWidth : ℚ) : ℚ :=
  cfg.minRightWidth / containerWidth

/-- `maxLeftRatio` of line 513: `maxLeftWidth` is interpreted as a fraction
when `≤ 1`, otherwise as pixels divided by the container width.  (The
`typeof maxLeftWidth === 'number'` test is always true: the prop has TS
type `number`.) -/
def maxLeftRatio (cfg : Config) (containerWidth : ℚ) : ℚ :=
  if cfg.maxLeftWidth ≤ 1 then cfg.maxLeftWidth else cfg.maxLeftWidth / containerWidth

/-- `maxRightRatio` of line 514, symmetric to `maxLeftRatio`. -/
def maxRightRatio (cfg : Config) (containerWidth : ℚ) : ℚ :=
  if cfg.maxRightWidth ≤ 1 then cfg.maxRightWidth else cfg.maxRightWidth / containerWidth

/-- The two clamps of lines 516–517, applied to a raw ratio `r`:
first `max(minLeftRatio, min(1 - minRightRatio, r))`,
then `max(1 - maxRightRatio, min(maxLeftRatio, ·))`. -/
def clampRatio (cfg : Config) (containerWidth r : ℚ) : ℚ :=
  max (1 - maxRightRatio cfg containerWidth)
    (min (maxLeftRatio cfg containerWidth)
      (max (minLeftRatio cfg containerWidth)
        (min (1 - minRightRatio cfg containerWidth) r)))

/-- The ratio computed by one `handleMouseMove` body (lines 503–517) from
the drag-start refs, the current pointer X and the container width
measured by `getBoundingClientRect()` during THIS event. -/
def moveRatio (cfg : Config) (dragStartRatio dragStartX clientX containerWidth : ℚ) : ℚ :=
  clampRatio cfg containerWidth (rawRatio dragStartRatio dragStartX clientX containerWidth)

/-- `handleMouseMove` (lines 500–521): early return unless a drag session is
active and the container ref is attached; otherwise measure the container
width NOW (`getBoundingClientRect()` is called inside the handler, on every
move), compute the clamped ratio, store it (`setSplitRatio`) and push it to
the parent callback (`onSplitRatioChange?.(newRatio)`).  `containerWidth`
is the width the container has at the time of this event. -/
def handleMouseMove (cfg : Config) (s : State) (clientX containerWidth : ℚ) : State :=
  if s.isDragging ∧ s.mounted then
    let newRatio := moveRatio cfg s.dragStartRatio s.dragStartX clientX containerWidth
    { s with
      splitRatio := newRatio
      callbackLog := newRatio :: s.callbackLog }
  else s

/-- `handleMouseUp` (lines 523–527): clears the drag flag (and restores the
document cursor / user-select styles, not modelled).  It touches neither
the ratio nor the callback. -/
def handleMouseUp (s : State) : State :=
  { s with isDragging := false }

/-- `resetSplit` (lines 540–543): ratio back to 0.5, parent notified. -/
def resetSplit (s : State) : State :=
  { s with
    splitRatio := 1/2
    callbackLog := (1/2 : ℚ) :: s.callbackLog }

/-- `toggleLeftPanel` (lines 545–553): collapse the left pane to the 0.02
sentinel, or restore 0.5 when already collapsed.  The parent callback is
not invoked by this handler. -/
def toggleLeftPanel (s : State) : State :=
  if s.isLeftCollapsed then
    { s with splitRatio := 1/2, isLeftCollapsed := false }
  else
    { s with splitRatio := 1/50, isLeftCollapsed := true }

/-- `toggleRightPanel` (lines 555–563): collapse the right pane to the 0.98
sentinel, or restore 0.5 when already collapsed. -/
def toggleRightPanel (s : State) : State :=
  if s.isRightCollapsed then
    { s with splitRatio := 1/2, isRightCollapsed := false }
  else
    { s with splitRatio := 49/50, isRightCollapsed := true }

/-- A sequence of mouse-move events at pointer positions `xs`, all while the
container measures `containerWidth`. -/
def runMoves (cfg : Config) (s : State) (containerWidth : ℚ) : List ℚ → State
  | [] => s
  | x :: xs => runMoves cfg (handleMouseMove cfg s x containerWidth) containerWidth xs

/-- Lower end of the spec's bound interval: `max(minLeftFrac, 1-maxRightFrac)`. -/
def boundsLo (cfg : Config) (containerWidth : ℚ) : ℚ :=
  max (minLeftRatio cfg containerWidth) (1 - maxRightRatio cfg containerWidth)

/-- Upper end of the spec's bound interval: `min(1-minRightFrac, maxLeftFrac)`. -/
def boundsHi (cfg : Config) (containerWidth : ℚ) : ℚ :=
  min (1 - minRightRatio cfg containerWidth) (maxLeftRatio cfg containerWidth)

end Compact

namespace Layout

/-- State of the simple `ResizableSplitView`
(`src/desktop_app/src/components/layout/ResizableSplitView.jsx`):
`splitRatio` and `isDragging` hooks, container attachment, callback log.
This component stores no drag-start data at all. -/
structure State where
  splitRatio : ℚ
  isDragging : Bool
  mounted : Bool
  callbackLog : List ℚ
deriving DecidableEq

/-- `handleMouseDown` (lines 16–19): only sets the dragging flag. -/
def handleMouseDown (s : State) : State :=
  { s with isDragging := true }

/-- The ratio computed by `handleMouseMove` (lines 24–26):
`(e.clientX - rect.left) / rect.width` clamped to `[0.2, 0.8]`,
from the bounding rectangle measured during this event. -/
def moveRatio (clientX rectLeft rectWidth : ℚ) : ℚ :=
  max (1/5) (min (4/5) ((clientX - rectLeft) / rectWidth))

/-- `handleMouseMove` (lines 21–32): early return unless dragging and the
container ref is attached; otherwise store and report the clamped ratio
computed from the current pointer X and the container rectangle measured
now. -/
def handleMouseMove (s : State) (clientX rectLeft rectWidth : ℚ) : State :=
  if s.isDragging ∧ s.mounted then
    let clampedRatio := moveRatio clientX rectLeft rectWidth
    { s with
      splitRatio := clampedRatio
      callbackLog := clampedRatio :: s.callbackLog }
  else s

/-- `handleMouseUp` (lines 34–36): clears the dragging flag only. -/
def handleMouseUp (s : State) : State :=
  { s with isDragging := false }

end Layout

/-! ## JavaScript number semantics at the singular point

`JSNum` models an IEEE double as an exact rational together with the special
values `Infinity`, `-Infinity` and `NaN` (rounding is not modelled, and the
model has no negative zero; `getBoundingClientRect().width` is never `-0`).
This is used to settle what `handleMouseMove` of the rich component computes
when the measured container width is exactly 0, where JavaScript division
produces `Infinity`/`NaN` instead of an error. -/

inductive JSNum where
  | num (q : ℚ)
  | posInf
  | negInf
  | nan
deriving DecidableEq

namespace JSNum

/-- JavaScript unary minus. -/
def neg : JSNum → JSNum
  | num q => num (-q)
  | posInf => negInf
  | negInf => posInf
  | nan => nan

/-- JavaScript `+`: `NaN` absorbs; `Infinity + (-Infinity) = NaN`. -/
def add : JSNum → JSNum → JSNum
  | nan, _ => nan
  | _, nan => nan
  | num a, num b => num (a + b)
  | num _, posInf => posInf
  | num _, negInf => negInf
  | posInf, num _ => posInf
  | negInf, num _ => negInf
  | posInf, posInf => posInf
  | negInf, negInf => negInf
  | posInf, negInf => nan
  | negInf, posInf => nan

/-- JavaScript `-`, as `a + (-b)`. -/
def sub (a b : JSNum) : JSNum :=
  add a (neg b)

/-- JavaScript `/`: division by zero of a nonzero finite numerator gives a
signed infinity, `0 / 0` gives `NaN`; a finite numerator over an infinity
gives 0; infinity over infinity gives `NaN`. -/
def div : JSNum → JSNum → JSNum
  | nan, _ => nan
  | _, nan => nan
  | num a, num b =>
    if b ≠ 0 then num (a / b)
    else if 0 < a then posInf
    else if a < 0 then negInf
    else nan
  | num _, posInf => num 0
  | num _, negInf => num 0
  | posInf, num b => if 0 ≤ b then posInf else negInf
  | negInf, num b => if 0 ≤ b then negInf else posInf
  | posInf, posInf => nan
  | posInf, negInf => nan
  | negInf, posInf => nan
  | negInf, negInf => nan

/-- `Math.min`: returns `NaN` if any argument is `NaN`. -/
def jsMin : JSNum → JSNum → JSNum
  | nan, _ => nan
  | _, nan => nan
  | negInf, _ => negInf
  | _, negInf => negInf
  | posInf, b => b
  | a, posInf => a
  | num a, num b => num (min a b)

/-- `Math.max`: returns `NaN` if any argument is `NaN`. -/
def jsMax : JSNum → JSNum → JSNum
  | nan, _ => nan
  | _, nan => nan
  | posInf, _ => posInf
  | _, posInf => posInf
  | negInf, b => b
  | a, negInf => a
  | num a, num b => num (max a b)

end JSNum

namespace Compact

/-- The body of `handleMouseMove` (lines 503–517 of the
`CompactTimelinePanel.tsx` bundle) over `JSNum`, i.e. with JavaScript's
special values: the same sequence of operations as `moveRatio`, but
faithful also when `containerWidth` is 0.  The props are finite numbers,
so the `maxLeftWidth <= 1` tests are on rationals. -/
def jsMoveRatio (cfg : Config) (dragStartRatio dragStartX clientX containerWidth : JSNum) :
    JSNum :=
  let deltaX := JSNum.sub clientX dragStartX
  let deltaRatio := JSNum.div deltaX containerWidth
  let newRatio0 := JSNum.add dragStartRatio deltaRatio
  let jsMinLeftRatio := JSNum.div (JSNum.num cfg.minLeftWidth) containerWidth
  let jsMinRightRatio := JSNum.div (JSNum.num cfg.minRightWidth) containerWidth
  let jsMaxLeftRatio :=
    if cfg.maxLeftWidth ≤ 1 then JSNum.num cfg.maxLeftWidth
    else JSNum.div (JSNum.num cfg.maxLeftWidth) containerWidth
  let jsMaxRightRatio :=
    if cfg.maxRightWidth ≤ 1 then JSNum.num cfg.maxRightWidth
    else JSNum.div (JSNum.num cfg.maxRightWidth) containerWidth
  let newRatio1 :=
    JSNum.jsMax jsMinLeftRatio
      (JSNum.jsMin (JSNum.sub (JSNum.num 1) jsMinRightRatio) newRatio0)
  JSNum.jsMax (JSNum.sub (JSNum.num 1) jsMaxRightRatio)
    (JSNum.jsMin jsMaxLeftRatio newRatio1)

end Compact

/-! ### Concrete fixtures

Example states used to instantiate the theorems below on concrete inputs. -/

/-- An active drag session of the rich component: ratio 0.5, dragging, the
container attached, drag started at pointer X 0 with ratio 0.5, no callback
fired yet. -/
def sampleDrag : Compact.State :=
  { splitRatio := 1/2
    isDragging := true
    isLeftCollapsed := false
    isRightCollapsed := false
    mounted := true
    dragStartX := 0
    dragStartRatio := 1/2
    callbackLog := [] }

/-- An active drag session of the simple (`layout/`) component. -/
def sampleDragL : Layout.State :=
  { splitRatio := 1/2
    isDragging := true
    mounted := true
    callbackLog := [] }

/-!
## Theorems

First the reduction lemmas tying `JSNum` to `ℚ` and the frame lemmas of the
event handlers, then the clamp-interval lemmas, then one theorem per claim.
-/

namespace JSNum

@[simp]
theorem add_num_num (a b : ℚ) : add (num a) (num b) = num (a + b) := rfl

@[simp]
theorem sub_num_num (a b : ℚ) : sub (num a) (num b) = num (a - b) := by
  simp [sub, neg, add, sub_eq_add_neg]

@[simp]
theorem div_num_num (a b : ℚ) (hb : b ≠ 0) : div (num a) (num b) = num (a / b) := by
  simp [div, hb]

@[simp]
theorem jsMin_num_num (a b : ℚ) : jsMin (num a) (num b) = num (min a b) := rfl

@[simp]
theorem jsMax_num_num (a b : ℚ) : jsMax (num a) (num b) = num (max a b) := rfl

end JSNum

namespace Compact

/-- On a nonzero container width the `JSNum` computation never leaves the
finite numbers and agrees with the rational model `moveRatio`: the rational
embedding is faithful everywhere except the zero-width singular point. -/
theorem jsMoveRatio_num (cfg : Config) (r sx x w : ℚ) (hw : w ≠ 0) :
    jsMoveRatio cfg (JSNum.num r) (JSNum.num sx) (JSNum.num x) (JSNum.num w) =
      JSNum.num (moveRatio cfg r sx x w) := by
  unfold jsMoveRatio moveRatio clampRatio rawRatio minLeftRatio minRightRatio
    maxLeftRatio maxRightRatio
  split_ifs <;> simp [hw]

/-! Frame lemmas: which fields each handler can touch.  `handleMouseMove`
never changes the drag-start refs, the flags or the attachment, in either
branch of its guard. -/

@[simp]
theorem handleMouseMove_dragStartRatio (cfg : Config) (s : State) (x w : ℚ) :
    (handleMouseMove cfg s x w).dragStartRatio = s.dragStartRatio := by
  unfold handleMouseMove; split <;> rfl

@[simp]
theorem handleMouseMove_dragStartX (cfg : Config) (s : State) (x w : ℚ) :
    (handleMouseMove cfg s x w).dragStartX = s.dragStartX := by
  unfold handleMouseMove; split <;> rfl

@[simp]
theorem handleMouseMove_isDragging (cfg : Config) (s : State) (x w : ℚ) :
    (handleMouseMove cfg s x w).isDragging = s.isDragging := by
  unfold handleMouseMove; split <;> rfl

@[simp]
theorem handleMouseMove_mounted (cfg : Config) (s : State) (x w : ℚ) :
    (handleMouseMove cfg s x w).mounted = s.mounted := by
  unfold handleMouseMove; split <;> rfl

/-- An effective mouse move (active session, attached container) stores the
clamped ratio computed from the drag-start refs and the width measured at
this event. -/
theorem handleMouseMove_splitRatio (cfg : Config) (s : State) (x w : ℚ)
    (hd : s.isDragging = true) (hm : s.mounted = true) :
    (handleMouseMove cfg s x w).splitRatio =
      moveRatio cfg s.dragStartRatio s.dragStartX x w := by
  simp [handleMouseMove, hd, hm]

/-- An effective mouse move pushes exactly the stored ratio to the parent
callback. -/
theorem handleMouseMove_callbackLog (cfg : Config) (s : State) (x w : ℚ)
    (hd : s.isDragging = true) (hm : s.mounted = true) :
    (handleMouseMove cfg s x w).callbackLog =
      moveRatio cfg s.dragStartRatio s.dragStartX x w :: s.callbackLog := by
  simp [handleMouseMove, hd, hm]

/-- A mouse move during an inactive session, or with a detached container,
changes nothing at all. -/
theorem handleMouseMove_noop (cfg : Config) (s : State) (x w : ℚ)
    (h : s.isDragging = false ∨ s.mounted = false) :
    handleMouseMove cfg s x w = s := by
  rcases h with h | h <;> simp [handleMouseMove, h]

/-- The clamp of lines 516–517 always lands in the interval
`[max(minLeftFrac, 1-maxRightFrac), min(1-minRightFrac, maxLeftFrac)]`,
provided that interval is nonempty. -/
theorem clampRatio_mem (cfg : Config) (w r : ℚ)
    (h : boundsLo cfg w ≤ boundsHi cfg w) :
    boundsLo cfg w ≤ clampRatio cfg w r ∧ clampRatio cfg w r ≤ boundsHi cfg w := by
  have hA := le_max_left (minLeftRatio cfg w) (1 - maxRightRatio cfg w)
  have hC := le_max_right (minLeftRatio cfg w) (1 - maxRightRatio cfg w)
  have hB := min_le_left (1 - minRightRatio cfg w) (maxLeftRatio cfg w)
  have hD := min_le_right (1 - minRightRatio cfg w) (maxLeftRatio cfg w)
  have hAB : minLeftRatio cfg w ≤ 1 - minRightRatio cfg w := le_trans (le_trans hA h) hB
  have hAD : minLeftRatio cfg w ≤ maxLeftRatio cfg w := le_trans (le_trans hA h) hD
  have hCB : 1 - maxRightRatio cfg w ≤ 1 - minRightRatio cfg w := le_trans (le_trans hC h) hB
  have hCD : 1 - maxRightRatio cfg w ≤ maxLeftRatio cfg w := le_trans (le_trans hC h) hD
  unfold clampRatio boundsLo boundsHi
  constructor
  · exact max_le
      (le_max_of_le_right
        (le_min hAD (le_max_left (minLeftRatio cfg w) (min (1 - minRightRatio cfg w) r))))
      (le_max_left (1 - maxRightRatio cfg w) _)
  · exact le_min
      (max_le hCB
        (le_trans (min_le_right (maxLeftRatio cfg w) _)
          (max_le hAB (min_le_left (1 - minRightRatio cfg w) r))))
      (max_le hCD (min_le_left (maxLeftRatio cfg w) _))

/-- A ratio already inside the bound interval is a fixed point of the clamp:
this is exactly when a zero-delta drag update leaves the ratio unchanged. -/
theorem clampRatio_eq_self (cfg : Config) (w r : ℚ)
    (h1 : boundsLo cfg w ≤ r) (h2 : r ≤ boundsHi cfg w) :
    clampRatio cfg w r = r := by
  rw [boundsLo, max_le_iff] at h1
  rw [boundsHi, le_min_iff] at h2
  unfold clampRatio
  rw [min_eq_right h2.1, max_eq_right h1.1, min_eq_right h2.2, max_eq_right h1.2]

/-- Running a sequence of moves preserves the bound interval once inside it
(active session, attached container, nonempty interval). -/
theorem runMoves_mem (cfg : Config) (w : ℚ)
    (h : boundsLo cfg w ≤ boundsHi cfg w) :
    ∀ (xs : List ℚ) (s : State), s.isDragging = true → s.mounted = true →
      boundsLo cfg w ≤ s.splitRatio → s.splitRatio ≤ boundsHi cfg w →
      boundsLo cfg w ≤ (runMoves cfg s w xs).splitRatio ∧
        (runMoves cfg s w xs).splitRatio ≤ boundsHi cfg w := by
  intro xs
  induction xs with
  | nil => intro s _ _ h1 h2; exact ⟨h1, h2⟩
  | cons x xs ih =>
    intro s hd hm _ _
    have hmem := clampRatio_mem cfg w
      (rawRatio s.dragStartRatio s.dragStartX x w) h
    have hr := handleMouseMove_splitRatio cfg s x w hd hm
    rw [moveRatio] at hr
    exact ih (handleMouseMove cfg s x w)
      (by simp [hd]) (by simp [hm]) (hr ▸ hmem.1) (hr ▸ hmem.2)

/-- The ratio after a nonempty run of moves is the clamp of the raw target
of the last move: the drag-start refs never change during the run. -/
theorem runMoves_concat_splitRatio (cfg : Config) (w : ℚ) :
    ∀ (xs : List ℚ) (s : State) (x : ℚ), s.isDragging = true → s.mounted = true →
      (runMoves cfg s w (xs ++ [x])).splitRatio =
        moveRatio cfg s.dragStartRatio s.dragStartX x w := by
  intro xs
  induction xs with
  | nil =>
    intro s x hd hm
    exact handleMouseMove_splitRatio cfg s x w hd hm
  | cons y ys ih =>
    intro s x hd hm
    have := ih (handleMouseMove cfg s y w) x (by simp [hd]) (by simp [hm])
    simpa using this

end Compact

/-! ### The claims -/

/-- C1: during an active drag session, a drag update computes the new split
ratio as the drag-start ratio plus `(pointerX - startX) / containerWidth`,
clamped first to `[minLeftFrac, 1-minRightFrac]` and then to
`[1-maxRightFrac, maxLeftFrac]` (stated here for fractional maximum widths,
i.e. `maxLeftWidth ≤ 1` and `maxRightWidth ≤ 1`, so that the maximum
fractions are the configured values); starting from ratio 0.6, a +200px
pointer movement in a 1000px container has raw target ratio 0.8; and a drag
update with no active session is a no-op. -/
theorem C1_update_drag_formula (cfg : Compact.Config) (s : Compact.State) (x w : ℚ)
    (hd : s.isDragging = true) (hm : s.mounted = true)
    (hML : cfg.maxLeftWidth ≤ 1) (hMR : cfg.maxRightWidth ≤ 1) :
    (Compact.handleMouseMove cfg s x w).splitRatio =
      max (1 - cfg.maxRightWidth) (min cfg.maxLeftWidth
        (max (cfg.minLeftWidth / w) (min (1 - cfg.minRightWidth / w)
          (s.dragStartRatio + (x - s.dragStartX) / w)))) ∧
    Compact.rawRatio (3/5) 100 300 1000 = 4/5 ∧
    ∀ t : Compact.State, t.isDragging = false →
      Compact.handleMouseMove cfg t x w = t := by
  refine ⟨?_, by norm_num [Compact.rawRatio],
    fun t ht => Compact.handleMouseMove_noop cfg t x w (Or.inl ht)⟩
  rw [Compact.handleMouseMove_splitRatio cfg s x w hd hm]
  simp [Compact.moveRatio, Compact.clampRatio, Compact.rawRatio, Compact.minLeftRatio,
    Compact.minRightRatio, Compact.maxLeftRatio, Compact.maxRightRatio, hML, hMR]

/-- Witness for C1: the default configuration, drag started at ratio 0.6 and
pointer X 100, update at pointer X 300 with container width 1000: the raw
target is 0.8 and the stored ratio is the clamp 0.7. -/
theorem C1_witness :
    (Compact.handleMouseMove {}
        { sampleDrag with dragStartRatio := 3/5, dragStartX := 100 }
        300 1000).splitRatio = 7/10 ∧
    Compact.rawRatio (3/5) 100 300 1000 = 4/5 ∧
    Compact.handleMouseMove {} { sampleDrag with isDragging := false } 300 1000 =
      { sampleDrag with isDragging := false } := by
  have h := C1_update_drag_formula {}
    { sampleDrag with dragStartRatio := 3/5, dragStartX := 100 }
    300 1000 rfl rfl (by norm_num) (by norm_num)
  exact ⟨h.1.trans (by norm_num), h.2.1, h.2.2 _ rfl⟩

/-- C2 as stated is false: the bound interval can be empty, and then no
ratio lies in it.  With minimum widths 300/300, `maxLeftWidth = 0.1`,
`maxRightWidth = 0.8` and container width 1000, the claimed interval is
`[max(0.3, 0.2), min(0.7, 0.1)] = [0.3, 0.1]`, yet a drag update stores
ratio 0.2 (the last clamp wins). -/
theorem C2_counterexample :
    (Compact.handleMouseMove { maxLeftWidth := 1/10 } sampleDrag 0 1000).splitRatio
      = 1/5 ∧
    Compact.boundsLo { maxLeftWidth := 1/10 } 1000 = 3/10 ∧
    Compact.boundsHi { maxLeftWidth := 1/10 } 1000 = 1/10 ∧
    ¬(Compact.boundsLo { maxLeftWidth := 1/10 } 1000 ≤
        (Compact.handleMouseMove { maxLeftWidth := 1/10 } sampleDrag 0 1000).splitRatio ∧
      (Compact.handleMouseMove { maxLeftWidth := 1/10 } sampleDrag 0 1000).splitRatio ≤
        Compact.boundsHi { maxLeftWidth := 1/10 } 1000) := by
  norm_num [Compact.handleMouseMove, Compact.moveRatio, Compact.clampRatio,
    Compact.rawRatio, Compact.minLeftRatio, Compact.minRightRatio,
    Compact.maxLeftRatio, Compact.maxRightRatio, Compact.boundsLo, Compact.boundsHi,
    sampleDrag]

/-- C2 amended: whenever the configured bound interval
`[max(minLeftFrac, 1-maxRightFrac), min(1-minRightFrac, maxLeftFrac)]` is
nonempty (and the container width is positive), the ratio resulting from any
nonempty sequence of drag updates of an active session lies in it. -/
theorem C2_bounds_after_drag_sequence (cfg : Compact.Config) (s : Compact.State)
    (w x : ℚ) (xs : List ℚ)
    (hd : s.isDragging = true) (hm : s.mounted = true) (_hw : 0 < w)
    (hb : Compact.boundsLo cfg w ≤ Compact.boundsHi cfg w) :
    Compact.boundsLo cfg w ≤ (Compact.runMoves cfg s w (x :: xs)).splitRatio ∧
      (Compact.runMoves cfg s w (x :: xs)).splitRatio ≤ Compact.boundsHi cfg w := by
  have h1 := Compact.clampRatio_mem cfg w
    (Compact.rawRatio s.dragStartRatio s.dragStartX x w) hb
  have hr := Compact.handleMouseMove_splitRatio cfg s x w hd hm
  rw [Compact.moveRatio] at hr
  have := Compact.runMoves_mem cfg w hb xs (Compact.handleMouseMove cfg s x w)
    (by simp [hd]) (by simp [hm]) (hr ▸ h1.1) (hr ▸ h1.2)
  simpa [Compact.runMoves] using this

/-- Witness for C2: default bounds (300px minimums, 0.8 maximums), width
1000 ⇒ interval [0.3, 0.7]; a drag update whose raw target is 0.9 lands in
the interval, namely at 0.7. -/
theorem C2_witness :
    (Compact.boundsLo {} 1000 ≤ (Compact.runMoves {} sampleDrag 1000 [400]).splitRatio ∧
      (Compact.runMoves {} sampleDrag 1000 [400]).splitRatio ≤ Compact.boundsHi {} 1000) ∧
    (Compact.runMoves {} sampleDrag 1000 [400]).splitRatio = 7/10 := by
  refine ⟨C2_bounds_after_drag_sequence {} sampleDrag 1000 400 [] rfl rfl
    (by norm_num) ?_, ?_⟩
  · norm_num [Compact.boundsLo, Compact.boundsHi, Compact.minLeftRatio,
      Compact.minRightRatio, Compact.maxLeftRatio, Compact.maxRightRatio]
  · norm_num [Compact.runMoves, Compact.handleMouseMove, Compact.moveRatio,
      Compact.clampRatio, Compact.rawRatio, Compact.minLeftRatio,
      Compact.minRightRatio, Compact.maxLeftRatio, Compact.maxRightRatio, sampleDrag]

/-- C3 as stated is false: the container width enters a drag update as
measured during that update, not as measured at drag start.  From one and
the same drag-session state, a move at pointer X 200 stores ratio 0.7 when
the container currently measures 1000 but 0.6 when it currently measures
2000 — the result depends on the current width, which the claim says has no
effect. -/
theorem C3_counterexample :
    (Compact.handleMouseMove {} sampleDrag 200 1000).splitRatio = 7/10 ∧
    (Compact.handleMouseMove {} sampleDrag 200 2000).splitRatio = 3/5 ∧
    ((7 : ℚ)/10 ≠ 3/5) := by
  norm_num [Compact.handleMouseMove, Compact.moveRatio, Compact.clampRatio,
    Compact.rawRatio, Compact.minLeftRatio, Compact.minRightRatio,
    Compact.maxLeftRatio, Compact.maxRightRatio, sampleDrag]

/-- C3 amended: `getBoundingClientRect()` is called inside `handleMouseMove`,
so the width is measured on every drag update; `handleMouseDown` stores only
the pointer X and the ratio, and the ratio stored by an update is a function
of the width supplied with that update — a mid-drag width change therefore
changes the denominator of subsequent updates. -/
theorem C3_width_measured_per_move (cfg : Compact.Config) (s : Compact.State)
    (x0 x w : ℚ) (hm : s.mounted = true) :
    (Compact.handleMouseMove cfg (Compact.handleMouseDown s x0) x w).splitRatio =
      Compact.clampRatio cfg w (s.splitRatio + (x - x0) / w) := by
  have hd : (Compact.handleMouseDown s x0).isDragging = true := rfl
  have hm' : (Compact.handleMouseDown s x0).mounted = true := hm
  rw [Compact.handleMouseMove_splitRatio cfg _ x w hd hm']
  rfl

/-- Witness for C3: drag begun at pointer X 0 from ratio 0.5; a move at
pointer X 200 while the container currently measures 2000 stores
`clamp(0.5 + 200/2000) = 0.6`. -/
theorem C3_witness :
    (Compact.handleMouseMove {} (Compact.handleMouseDown sampleDrag 0) 200 2000).splitRatio =
      Compact.clampRatio {} 2000 (1/2 + (200 - 0) / 2000) ∧
    Compact.clampRatio {} 2000 (1/2 + (200 - 0) / 2000) = 3/5 := by
  refine ⟨C3_width_measured_per_move {} sampleDrag 0 200 2000 rfl, ?_⟩
  norm_num [Compact.clampRatio, Compact.minLeftRatio, Compact.minRightRatio,
    Compact.maxLeftRatio, Compact.maxRightRatio]

/-- C4 as stated is false: a zero-net-movement drag session leaves the
ratio unchanged only if the ratio was already inside the clamp interval.
After collapsing the left pane (ratio 0.02), a drag session that starts and
ends at pointer X 10, with a move event at that same X (container width
1000, default bounds), ends with ratio 0.3 ≠ 0.02: the update snaps the
out-of-bounds ratio to the clamp. -/
theorem C4_counterexample :
    (Compact.toggleLeftPanel (Compact.mount (Compact.init {}))).splitRatio = 1/50 ∧
    (Compact.handleMouseUp (Compact.handleMouseMove {}
        (Compact.handleMouseDown
          (Compact.toggleLeftPanel (Compact.mount (Compact.init {}))) 10)
        10 1000)).splitRatio = 3/10 ∧
    ((3 : ℚ)/10 ≠ 1/50) := by
  norm_num [Compact.init, Compact.mount, Compact.toggleLeftPanel,
    Compact.handleMouseDown, Compact.handleMouseMove, Compact.handleMouseUp,
    Compact.moveRatio, Compact.clampRatio, Compact.rawRatio, Compact.minLeftRatio,
    Compact.minRightRatio, Compact.maxLeftRatio, Compact.maxRightRatio]

/-- C4 amended: a drag session whose final pointer X equals its starting
pointer X leaves the ratio unchanged, provided the ratio at drag start lies
inside the bound interval (as every ratio produced by a drag does); a
session with no move events at all leaves the ratio unchanged
unconditionally. -/
theorem C4_zero_net_drag (cfg : Compact.Config) (s : Compact.State)
    (x0 w : ℚ) (xs : List ℚ) (hm : s.mounted = true)
    (h1 : Compact.boundsLo cfg w ≤ s.splitRatio)
    (h2 : s.splitRatio ≤ Compact.boundsHi cfg w) :
    (Compact.handleMouseUp
        (Compact.runMoves cfg (Compact.handleMouseDown s x0) w (xs ++ [x0]))).splitRatio
      = s.splitRatio ∧
    (Compact.handleMouseUp (Compact.handleMouseDown s x0)).splitRatio = s.splitRatio := by
  refine ⟨?_, rfl⟩
  have hd : (Compact.handleMouseDown s x0).isDragging = true := rfl
  have hm' : (Compact.handleMouseDown s x0).mounted = true := hm
  have h := Compact.runMoves_concat_splitRatio cfg w xs (Compact.handleMouseDown s x0) x0 hd hm'
  have hup : (Compact.handleMouseUp
      (Compact.runMoves cfg (Compact.handleMouseDown s x0) w (xs ++ [x0]))).splitRatio =
      (Compact.runMoves cfg (Compact.handleMouseDown s x0) w (xs ++ [x0])).splitRatio := rfl
  rw [hup, h]
  show Compact.clampRatio cfg w (s.splitRatio + (x0 - x0) / w) = s.splitRatio
  rw [sub_self, zero_div, add_zero]
  exact Compact.clampRatio_eq_self cfg w s.splitRatio h1 h2

/-- Witness for C4: from ratio 0.5 (inside [0.3, 0.7]), a session begun at
pointer X 5 with an excursion to X 100 and back to X 5 at width 1000 ends
with ratio 0.5, as does the session with no moves. -/
theorem C4_witness :
    (Compact.handleMouseUp
        (Compact.runMoves {}
          (Compact.handleMouseDown { sampleDrag with isDragging := false } 5)
          1000 ([100] ++ [5]))).splitRatio = 1/2 ∧
    (Compact.handleMouseUp
        (Compact.handleMouseDown { sampleDrag with isDragging := false } 5)).splitRatio
      = 1/2 :=
  C4_zero_net_drag {} { sampleDrag with isDragging := false } 5 1000 [100] rfl
    (by norm_num [Compact.boundsLo, Compact.minLeftRatio, Compact.maxRightRatio,
      sampleDrag])
    (by norm_num [Compact.boundsHi, Compact.minRightRatio, Compact.maxLeftRatio,
      sampleDrag])

/-- C5 as stated is false for the zero-width half: with an attached container
that measures width 0, a drag update is NOT ignored.  Per JavaScript number
semantics, a positive pointer delta makes `deltaRatio = Infinity`, and the
two clamps collapse the result to `maxLeftRatio = 0.8` under the default
bounds: the update stores 0.8 ≠ 0.5 and the callback fires (the guard tests
only the session flag and the ref attachment, never the width — the third
conjunct records that the callback log still grows at width 0). -/
theorem C5_counterexample :
    Compact.jsMoveRatio {} (JSNum.num (1/2)) (JSNum.num 0) (JSNum.num 100) (JSNum.num 0) =
      JSNum.num (4/5) ∧
    JSNum.num ((4 : ℚ)/5) ≠ JSNum.num ((1 : ℚ)/2) ∧
    (Compact.handleMouseMove {} sampleDrag 100 0).callbackLog.length =
      sampleDrag.callbackLog.length + 1 := by
  refine ⟨?_, by norm_num, by simp [Compact.handleMouseMove, sampleDrag]⟩
  norm_num [Compact.jsMoveRatio, JSNum.div, JSNum.add, JSNum.sub, JSNum.neg,
    JSNum.jsMin, JSNum.jsMax]

/-- C5 amended: a drag update with a detached container ref, or without an
active drag session, is ignored entirely — the state (hence the ratio and
the callback log) is unchanged and, the model being a total function, no
error is raised.  A zero measured width is not guarded (see the
counterexample). -/
theorem C5_unmounted_ignored (cfg : Compact.Config) (s : Compact.State) (x w : ℚ) :
    (s.mounted = false → Compact.handleMouseMove cfg s x w = s) ∧
    (s.isDragging = false → Compact.handleMouseMove cfg s x w = s) :=
  ⟨fun h => Compact.handleMouseMove_noop cfg s x w (Or.inr h),
   fun h => Compact.handleMouseMove_noop cfg s x w (Or.inl h)⟩

/-- Witness for C5: a move with a detached container (and one with no active
session) returns the state unchanged. -/
theorem C5_witness :
    Compact.handleMouseMove {} { sampleDrag with mounted := false } 100 0 =
      { sampleDrag with mounted := false } ∧
    Compact.handleMouseMove {} { sampleDrag with isDragging := false } 100 1000 =
      { sampleDrag with isDragging := false } :=
  ⟨(C5_unmounted_ignored {} { sampleDrag with mounted := false } 100 0).1 rfl,
   (C5_unmounted_ignored {} { sampleDrag with isDragging := false } 100 1000).2 rfl⟩

/-- C6: toggling a collapsed/expanded side.  Applied to an expanded side,
`toggleLeftPanel` stores the 0.02 sentinel (`toggleRightPanel`: 0.98) and
marks the side collapsed; applied to a collapsed side it stores 0.5 and
un-collapses; hence two successive left toggles from an expanded state end
at ratio 0.5 whatever the ratio was before. -/
theorem C6_toggle_collapse (s : Compact.State) :
    (s.isLeftCollapsed = false →
      (Compact.toggleLeftPanel s).splitRatio = 1/50 ∧
      (Compact.toggleLeftPanel s).isLeftCollapsed = true ∧
      (Compact.toggleLeftPanel (Compact.toggleLeftPanel s)).splitRatio = 1/2 ∧
      (Compact.toggleLeftPanel (Compact.toggleLeftPanel s)).isLeftCollapsed = false) ∧
    (s.isRightCollapsed = false →
      (Compact.toggleRightPanel s).splitRatio = 49/50 ∧
      (Compact.toggleRightPanel s).isRightCollapsed = true) ∧
    (s.isLeftCollapsed = true →
      (Compact.toggleLeftPanel s).splitRatio = 1/2 ∧
      (Compact.toggleLeftPanel s).isLeftCollapsed = false) ∧
    (s.isRightCollapsed = true →
      (Compact.toggleRightPanel s).splitRatio = 1/2 ∧
      (Compact.toggleRightPanel s).isRightCollapsed = false) := by
  refine ⟨fun h => ?_, fun h => ?_, fun h => ?_, fun h => ?_⟩ <;>
    simp [Compact.toggleLeftPanel, Compact.toggleRightPanel, h]

/-- Witness for C6: from the freshly initialized (expanded) state, one left
toggle gives 0.02 and a second gives 0.5 back; one right toggle gives 0.98;
from a right-collapsed state one right toggle gives 0.5. -/
theorem C6_witness :
    (Compact.toggleLeftPanel (Compact.init {})).splitRatio = 1/50 ∧
    (Compact.toggleLeftPanel (Compact.toggleLeftPanel (Compact.init {}))).splitRatio
      = 1/2 ∧
    (Compact.toggleRightPanel (Compact.init {})).splitRatio = 49/50 ∧
    (Compact.toggleRightPanel { sampleDrag with isRightCollapsed := true }).splitRatio
      = 1/2 :=
  ⟨((C6_toggle_collapse (Compact.init {})).1 rfl).1,
   ((C6_toggle_collapse (Compact.init {})).1 rfl).2.2.1,
   ((C6_toggle_collapse (Compact.init {})).2.1 rfl).1,
   ((C6_toggle_collapse { sampleDrag with isRightCollapsed := true }).2.2.2 rfl).1⟩

/-- C7 as stated is false: the ratio is NOT kept inside [0,1] and the
configured bounds at every lifecycle point.  Initialization stores the
supplied prop verbatim — with `initialSplitRatio = 1.5` the ratio is 1.5,
outside [0,1] — and collapsing the left pane stores the 0.02 sentinel,
below the bound `minLeftFrac = 0.3` of the default configuration at width
1000. -/
theorem C7_counterexample :
    (Compact.init { initialSplitRatio := 3/2 }).splitRatio = 3/2 ∧
    ¬((3 : ℚ)/2 ≤ 1) ∧
    (Compact.toggleLeftPanel (Compact.mount (Compact.init {}))).splitRatio = 1/50 ∧
    ¬(Compact.boundsLo {} 1000 ≤ 1/50) := by
  refine ⟨rfl, by norm_num, rfl, ?_⟩
  norm_num [Compact.boundsLo, Compact.minLeftRatio, Compact.maxRightRatio]

/-- C7 amended: only drag updates clamp.  Initialization stores the prop
value unclamped, reset stores 0.5 and an expanded-side left toggle stores
0.02 regardless of the configured bounds; the ratio stored by a drag update
(active session, attached container, positive width, nonempty bound
interval) does lie within the configured bounds. -/
theorem C7_bounds_amended :
    (∀ cfg : Compact.Config, (Compact.init cfg).splitRatio = cfg.initialSplitRatio) ∧
    (∀ s : Compact.State, (Compact.resetSplit s).splitRatio = 1/2) ∧
    (∀ s : Compact.State, s.isLeftCollapsed = false →
      (Compact.toggleLeftPanel s).splitRatio = 1/50) ∧
    (∀ (cfg : Compact.Config) (s : Compact.State) (x w : ℚ),
      s.isDragging = true → s.mounted = true → 0 < w →
      Compact.boundsLo cfg w ≤ Compact.boundsHi cfg w →
      Compact.boundsLo cfg w ≤ (Compact.handleMouseMove cfg s x w).splitRatio ∧
        (Compact.handleMouseMove cfg s x w).splitRatio ≤ Compact.boundsHi cfg w) := by
  refine ⟨fun cfg => rfl, fun s => rfl,
    fun s h => by simp [Compact.toggleLeftPanel, h], ?_⟩
  intro cfg s x w hd hm _hw hb
  have h1 := Compact.clampRatio_mem cfg w
    (Compact.rawRatio s.dragStartRatio s.dragStartX x w) hb
  have hr := Compact.handleMouseMove_splitRatio cfg s x w hd hm
  rw [Compact.moveRatio] at hr
  exact ⟨hr ▸ h1.1, hr ▸ h1.2⟩

/-- Witness for C7 (amended): initialization passes 0.5 through, reset gives
0.5, collapsing the expanded fresh state gives 0.02, and a drag update at
raw target 0.9 (width 1000, default bounds) lands inside [0.3, 0.7]. -/
theorem C7_witness :
    (Compact.init {}).splitRatio = 1/2 ∧
    (Compact.resetSplit sampleDrag).splitRatio = 1/2 ∧
    (Compact.toggleLeftPanel (Compact.init {})).splitRatio = 1/50 ∧
    (Compact.boundsLo {} 1000 ≤ (Compact.handleMouseMove {} sampleDrag 400 1000).splitRatio ∧
      (Compact.handleMouseMove {} sampleDrag 400 1000).splitRatio ≤
        Compact.boundsHi {} 1000) := by
  refine ⟨C7_bounds_amended.1 {}, C7_bounds_amended.2.1 sampleDrag,
    C7_bounds_amended.2.2.1 (Compact.init {}) rfl,
    C7_bounds_amended.2.2.2 {} sampleDrag 400 1000 rfl rfl (by norm_num) ?_⟩
  norm_num [Compact.boundsLo, Compact.boundsHi, Compact.minLeftRatio,
    Compact.minRightRatio, Compact.maxLeftRatio, Compact.maxRightRatio]

/-- C8: live-resize semantics.  Every pointer move of an active session with
an attached, measurable container stores the newly clamped ratio and pushes
a value to the parent callback, and the pushed value is exactly the stored
clamped value. -/
theorem C8_live_callback (cfg : Compact.Config) (s : Compact.State) (x w : ℚ)
    (hd : s.isDragging = true) (hm : s.mounted = true) (_hw : 0 < w) :
    (Compact.handleMouseMove cfg s x w).splitRatio =
      Compact.moveRatio cfg s.dragStartRatio s.dragStartX x w ∧
    (Compact.handleMouseMove cfg s x w).callbackLog =
      Compact.moveRatio cfg s.dragStartRatio s.dragStartX x w :: s.callbackLog ∧
    (Compact.handleMouseMove cfg s x w).callbackLog =
      (Compact.handleMouseMove cfg s x w).splitRatio :: s.callbackLog := by
  refine ⟨Compact.handleMouseMove_splitRatio cfg s x w hd hm,
    Compact.handleMouseMove_callbackLog cfg s x w hd hm, ?_⟩
  rw [Compact.handleMouseMove_splitRatio cfg s x w hd hm,
    Compact.handleMouseMove_callbackLog cfg s x w hd hm]

/-- Witness for C8: a move of the sample session at pointer X 400, width
1000, pushes to the callback exactly the ratio it stores. -/
theorem C8_witness :
    (Compact.handleMouseMove {} sampleDrag 400 1000).splitRatio =
      Compact.moveRatio {} (1/2) 0 400 1000 ∧
    (Compact.handleMouseMove {} sampleDrag 400 1000).callbackLog =
      Compact.moveRatio {} (1/2) 0 400 1000 :: [] ∧
    (Compact.handleMouseMove {} sampleDrag 400 1000).callbackLog =
      (Compact.handleMouseMove {} sampleDrag 400 1000).splitRatio :: [] :=
  C8_live_callback {} sampleDrag 400 1000 rfl rfl (by norm_num)

/-- C9: `handleMouseUp` only clears the drag session: the ratio, the
callback log, the collapse flags, the container attachment and the
drag-start refs are all exactly as before, and the session flag is
cleared. -/
theorem C9_end_drag_frame (s : Compact.State) :
    (Compact.handleMouseUp s).isDragging = false ∧
    (Compact.handleMouseUp s).splitRatio = s.splitRatio ∧
    (Compact.handleMouseUp s).callbackLog = s.callbackLog ∧
    (Compact.handleMouseUp s).isLeftCollapsed = s.isLeftCollapsed ∧
    (Compact.handleMouseUp s).isRightCollapsed = s.isRightCollapsed ∧
    (Compact.handleMouseUp s).mounted = s.mounted ∧
    (Compact.handleMouseUp s).dragStartX = s.dragStartX ∧
    (Compact.handleMouseUp s).dragStartRatio = s.dragStartRatio :=
  ⟨rfl, rfl, rfl, rfl, rfl, rfl, rfl, rfl⟩

/-- C10 (about the `layout/ResizableSplitView.jsx` component the claim
cites): drag updates are memoryless.  Any two updates with the same current
pointer X and the same container rectangle store the same clamped ratio —
`(clientX - rect.left) / rect.width` clamped to [0.2, 0.8] — whatever the
prior ratio or drag history of either state; this component records no
drag-start data at all. -/
theorem C10_memoryless (s t : Layout.State) (x l w : ℚ)
    (hs1 : s.isDragging = true) (hs2 : s.mounted = true)
    (ht1 : t.isDragging = true) (ht2 : t.mounted = true) :
    (Layout.handleMouseMove s x l w).splitRatio =
      (Layout.handleMouseMove t x l w).splitRatio ∧
    (Layout.handleMouseMove s x l w).splitRatio = Layout.moveRatio x l w := by
  constructor <;> simp [Layout.handleMouseMove, hs1, hs2, ht1, ht2]

/-- Witness for C10: two dragging states with different prior ratios and
histories store the same ratio for the same move event. -/
theorem C10_witness :
    (Layout.handleMouseMove sampleDragL 500 0 1000).splitRatio =
      (Layout.handleMouseMove
        { sampleDragL with splitRatio := 3/10, callbackLog := [3/10] }
        500 0 1000).splitRatio ∧
    (Layout.handleMouseMove sampleDragL 500 0 1000).splitRatio =
      Layout.moveRatio 500 0 1000 :=
  C10_memoryless sampleDragL
    { sampleDragL with splitRatio := 3/10, callbackLog := [3/10] }
    500 0 1000 rfl rfl rfl rfl
